import Mathlib

/-!
Shallow embedding of the psh-mcp and inventory-mcp servers
(src/psh-mcp/psh_mcp/server.py and src/inventory-mcp/inventory_mcp/server.py).

Python values that may be absent (`None`) are modelled as `Option`;
Python exceptions are modelled through `Except PyError`.  Dictionaries with a
fixed key set known from the code are modelled as structures whose field names
are the dictionary keys; the one place where the exact key list of a returned
dictionary matters (the audit result) is modelled as an association list of
string keys in the literal order of the source.
-/

/-- Python exceptions raised by the modelled code: `TypeError` (raised by
`list.sort` when comparing `None` with `str`) and `ValueError` with its
message. -/
inductive PyError where
  | typeError
  | valueError (msg : String)
deriving DecidableEq, Repr

/-- Python truthiness of an optional string: `None` and the empty string are
falsy, every other string is truthy.  This is the test performed by
`if explicit_token:` and `if ctx_token:` in both servers. -/
def pyTruthy : Option String → Bool
  | none => false
  | some s => s ≠ ""

namespace PshMcp

/-- Model of `get_token`, src/psh-mcp/psh_mcp/server.py lines 56-65: return the
explicit token if truthy, else the ambient request-context token if truthy,
else raise `ValueError`.  The ambient `request_auth_token` context variable is
passed as the `ambient` argument; the function performs no I/O. -/
def get_token (explicit_token : Option String) (ambient : Option String) :
    Except PyError String :=
  if pyTruthy explicit_token then .ok (explicit_token.getD "")
  else if pyTruthy ambient then .ok (ambient.getD "")
  else .error (.valueError
    "Authentication required: No Bearer token provided in header or arguments.")

/-- One element of the `updates` list of a raw event dictionary.  Keys read by
the code: `updateTime`, `title`, `description`, `workaround`; each may be
absent (`dict.get` returns `None`). -/
structure RawUpdate where
  updateTime : Option String
  title : Option String
  description : Option String
  workaround : Option String
deriving DecidableEq, Repr

/-- One element of the `impactedProducts` list; the code reads only the
`productName` key. -/
structure RawProduct where
  productName : Option String
deriving DecidableEq, Repr

/-- The raw event dictionary as read by `_format_event_details`
(src/psh-mcp/psh_mcp/server.py lines 79-100).  Keys consulted: `name`,
`title`, `state`, `updateTime`, `updates` (default `[]`), `impactedProducts`
(default `[]`). -/
structure RawEventData where
  name : Option String
  title : Option String
  state : Option String
  updateTime : Option String
  updates : List RawUpdate
  impactedProducts : List RawProduct
deriving DecidableEq, Repr

/-- The empty dictionary: every key absent, both lists empty. -/
def emptyRawEventData : RawEventData :=
  { name := none, title := none, state := none, updateTime := none,
    updates := [], impactedProducts := [] }

/-- The polymorphic input of `_format_event_details` (server.py lines 74-77):
either a protobuf object (has `_pb`; `MessageToDict` yields its dictionary),
or a plain dictionary, or anything else, in which case the code proceeds with
the empty dictionary. -/
inductive EventInput where
  | pb (data : RawEventData)
  | mapping (data : RawEventData)
  | malformed
deriving DecidableEq, Repr

/-- The dictionary `data` obtained on line 75-77 from each input shape. -/
def EventInput.data : EventInput → RawEventData
  | .pb d => d
  | .mapping d => d
  | .malformed => emptyRawEventData

/-- One normalized timeline entry (the dictionary built on lines 82-87, keys
`time`, `title`, `description`, `workaround`). -/
structure TimelineEntry where
  time : Option String
  title : Option String
  description : Option String
  workaround : Option String
deriving DecidableEq, Repr

/-- The normalized event dictionary returned on lines 93-101. -/
structure FormattedEvent where
  id : Option String
  title : Option String
  state : Option String
  last_updated : Option String
  impacted_products : List (Option String)
  timeline : List TimelineEntry
  latest_workaround : Option String
deriving DecidableEq, Repr

/-- Stable insertion (from the right) used to model a stable descending sort
by the string key: `x` goes in front of the first entry whose key is at most
the key of `x`. -/
def insertDescBy (key : TimelineEntry → String) (x : TimelineEntry) :
    List TimelineEntry → List TimelineEntry
  | [] => [x]
  | y :: ys => if key y ≤ key x then x :: y :: ys else y :: insertDescBy key x ys

/-- Stable descending sort by a string key (`foldr` of right-insertion is the
standard stable insertion sort; `list.sort(key=..., reverse=True)` in Python
is likewise stable). -/
def sortDescBy (key : TimelineEntry → String) (l : List TimelineEntry) :
    List TimelineEntry :=
  l.foldr (insertDescBy key) []

/-- Model of `timeline.sort(key=lambda x: x.get("time", ""), reverse=True)`
(server.py line 88).  Every entry dictionary is built with the key `time`
present (possibly `None`), so the `""` default of `dict.get` never applies and
the sort key is the raw `time` value.  CPython raises `TypeError` as soon as
it compares `None` with a string or with another `None`; its sort (run
detection followed by binary insertion / merging) compares every element of a
list of length at least two with some other element, so the sort raises
exactly when the list has at least two entries and some entry carries `time =
None`; otherwise it returns the stable descending order by the string key. -/
def pySortTimelineDesc (l : List TimelineEntry) :
    Except PyError (List TimelineEntry) :=
  if l.length ≤ 1 then .ok l
  else if l.all (fun e => e.time.isSome) then
    .ok (sortDescBy (fun e => e.time.getD "") l)
  else .error .typeError

/-- Model of `_format_event_details` (server.py lines 73-101): build the timeline from
`updates`, sort it descending by `time` (which may raise `TypeError`, see
`pySortTimelineDesc`), project `impactedProducts` to the `productName` values,
and derive `latest_workaround` from the head of the sorted timeline. -/
def _format_event_details (event_pb : EventInput) :
    Except PyError FormattedEvent :=
  let data := event_pb.data
  let timeline0 := data.updates.map fun u =>
    ({ time := u.updateTime, title := u.title, description := u.description,
       workaround := u.workaround } : TimelineEntry)
  match pySortTimelineDesc timeline0 with
  | .error e => .error e
  | .ok timeline =>
    .ok { id := data.name
        , title := data.title
        , state := data.state
        , last_updated := data.updateTime
        , impacted_products := data.impactedProducts.map (·.productName)
        , timeline := timeline
        , latest_workaround := timeline.head?.bind (·.workaround) }

/-- The tool loop shared verbatim by `list_active_events` (server.py lines
120-124) and `list_org_events` (lines 137-141): for each event from the
service, append the normalized event and stop once ten events were collected.
A `TypeError` escaping `_format_event_details` aborts the whole call. -/
def eventLoop (stream : List EventInput) (events : List FormattedEvent) :
    Except PyError (List FormattedEvent) :=
  match stream with
  | [] => .ok events
  | e :: rest =>
    match _format_event_details e with
    | .error err => .error err
    | .ok fe =>
      let events2 := events ++ [fe]
      if 10 ≤ events2.length then .ok events2
      else eventLoop rest events2

/-- Model of `list_active_events` restricted to its event-collection part (lines
120-124); the `stream` argument is the sequence of events the Service Health
client yields, after credential resolution and project-id validation. -/
def list_active_events (stream : List EventInput) :
    Except PyError (List FormattedEvent) :=
  eventLoop stream []

/-- Model of `list_org_events` restricted to its event-collection part (lines 137-141);
identical loop over the organization event stream. -/
def list_org_events (stream : List EventInput) :
    Except PyError (List FormattedEvent) :=
  eventLoop stream []

/-- One result record of a `SearchAllResources` page; the audit reads only its
`project` field, whose protobuf default is the empty string when unset. -/
structure SearchResult where
  project : String
deriving DecidableEq, Repr

/-- One page of a `SearchAllResources` stream: its result records and its
continuation token (empty string for the final page). -/
structure AssetPage where
  results : List SearchResult
  next_page_token : String
deriving DecidableEq, Repr

/-- The pages the Resource Query Service would serve, in order, for the two
queries issued by `list_projects_without_service_health`: the candidate
project query (lines 178-183) and the enabled-service marker query (lines
221-226).  The service collaborator is opaque; a scan consumes a prefix of
its stream, and iterating a pager object directly rather than through its
`pages` accessor consumes the whole stream (the client auto-flattens
multi-page results). -/
structure AuditEnv where
  candidate_pages : List AssetPage
  marker_pages : List AssetPage
deriving DecidableEq, Repr

/-- Values stored in the audit result dictionary. -/
inductive PyVal where
  | vlist (l : List String)
  | vnat (n : Nat)
  | vstr (s : String)
deriving DecidableEq, Repr

/-- The candidate list `projects_to_check` (lines 189-194): the loop over
`pager.pages` collects `p.project` for every result of the first page and
breaks, so only the first page contributes. -/
def projectsToCheck (env : AuditEnv) : List String :=
  match env.candidate_pages with
  | [] => []
  | page :: _ => page.results.map (·.project)

/-- The set `enabled_projects` (lines 230-235): the marker pager is iterated
without a break, so every page of the marker stream contributes; a record is
added only when its `project` field is truthy, that is non-empty. -/
def enabledProjects (env : AuditEnv) : List String :=
  (env.marker_pages.flatMap (·.results)).filterMap fun r =>
    if r.project = "" then none else some r.project

/-- Helper for substring containment: does `needle` occur as a prefix of any
suffix of `hay`. -/
def hasSubAux (needle : List Char) : List Char → Bool
  | [] => needle.isEmpty
  | c :: t => needle.isPrefixOf (c :: t) || hasSubAux needle t

/-- The safety guard of line 173: `"organizations" in scope` is Python
substring containment, tested together with `max_projects > 100`. -/
def strHasSub (hay needle : String) : Bool :=
  hasSubAux needle.toList hay.toList

/-- The condition under which line 174 raises
`ValueError("Safety Guard: ...")`. -/
def safetyGuardTriggered (scope : String) (max_projects : Int) : Bool :=
  strHasSub scope "organizations" && max_projects > 100

/-- Model of `list_projects_without_service_health` (server.py lines 159-253), after
credential resolution, over the page streams of `env`.  The returned
dictionary is modelled as an association list in the literal key order of the
source: the early return of line 197 has keys `disabled_projects` and
`warning`; the main return of lines 249-253 has keys `disabled_projects`,
`scanned_count` and `warning`.  `max_projects` only sets the page-size hint of
the candidate request and feeds the safety guard; it is not re-checked against
the returned records. -/
def list_projects_without_service_health (scope : String) (max_projects : Int)
    (env : AuditEnv) : Except PyError (List (String × PyVal)) :=
  if safetyGuardTriggered scope max_projects then
    .error (.valueError
      "Safety Guard: max_projects limited to 100 for Organization scopes.")
  else
    let projects_to_check := projectsToCheck env
    if projects_to_check = [] then
      .ok [("disabled_projects", .vlist []),
           ("warning", .vstr "No active projects found in scope.")]
    else
      let enabled_projects := enabledProjects env
      let disabled := projects_to_check.filter fun p => !enabled_projects.contains p
      .ok [("disabled_projects", .vlist disabled),
           ("scanned_count", .vnat projects_to_check.length),
           ("warning", .vstr ("Scanned first " ++
              toString projects_to_check.length ++
              " projects. Pass page_token (not impl yet) for more."))]

/-- Number of page fetches the candidate scan issues for a given invocation:
none when the safety guard aborts first, otherwise one page at most because of
the `break` on line 194. -/
def auditCandidateFetches (scope : String) (max_projects : Int)
    (env : AuditEnv) : Nat :=
  if safetyGuardTriggered scope max_projects then 0
  else min env.candidate_pages.length 1

/-- Number of page fetches the marker scan issues for a given invocation:
none when the safety guard aborts or the early return of line 197 fires;
otherwise the loop of line 230 iterates the pager to exhaustion and consumes
every page of the marker stream. -/
def auditMarkerFetches (scope : String) (max_projects : Int)
    (env : AuditEnv) : Nat :=
  if safetyGuardTriggered scope max_projects then 0
  else if projectsToCheck env = [] then 0
  else env.marker_pages.length

/-- The key list of the dictionary an invocation returns; empty when the
invocation raises. -/
def auditResultKeys (scope : String) (max_projects : Int) (env : AuditEnv) :
    List String :=
  match list_projects_without_service_health scope max_projects env with
  | .error _ => []
  | .ok kvs => kvs.map (·.1)

/-- Extract the `disabled_projects` entry of an audit result, when the
invocation succeeded and the entry is a list. -/
def disabledOf (r : Except PyError (List (String × PyVal))) :
    Option (List String) :=
  match r with
  | .error _ => none
  | .ok kvs =>
    match kvs.lookup "disabled_projects" with
    | some (.vlist l) => some l
    | _ => none

/-- Reading the normalized event dictionary back as a raw event mapping: of
the output keys `id`, `title`, `state`, `last_updated`, `impacted_products`,
`timeline`, `latest_workaround`, only `title` and `state` coincide with the
keys `_format_event_details` consults (`name`, `title`, `state`,
`updateTime`, `updates`, `impactedProducts`), so all the others read as
absent and the two list defaults apply. -/
def formattedAsMapping (fe : FormattedEvent) : RawEventData :=
  { name := none
  , title := fe.title
  , state := fe.state
  , updateTime := none
  , updates := []
  , impactedProducts := [] }

end PshMcp

namespace InventoryMcp

/-- Model of `get_token`, src/inventory-mcp/inventory_mcp/server.py lines 53-62,
textually identical to the psh-mcp helper. -/
def get_token (explicit_token : Option String) (ambient : Option String) :
    Except PyError String :=
  if pyTruthy explicit_token then .ok (explicit_token.getD "")
  else if pyTruthy ambient then .ok (ambient.getD "")
  else .error (.valueError
    "Authentication required: No Bearer token provided in header or arguments.")

/-- One asset record of a search page; the five fields the tool projects into
its result dictionaries (server.py lines 125-131). -/
structure AssetRecord where
  name : String
  asset_type : String
  display_name : String
  project : String
  state : String
deriving DecidableEq, Repr

/-- One page of the search stream with its continuation token (empty string
on the final page). -/
structure InvPage where
  results : List AssetRecord
  next_page_token : String
deriving DecidableEq, Repr

/-- The resource dictionary built for each record on lines 125-131. -/
def mkResource (r : AssetRecord) : AssetRecord :=
  { name := r.name, asset_type := r.asset_type, display_name := r.display_name,
    project := r.project, state := r.state }

/-- Model of `search_assets` restricted to its page-consumption part (server.py lines
120-139), over the pages the service would serve: the loop over `pager.pages`
returns from inside its first iteration, so the result holds exactly the
records of the first page together with that page token (`None` when the
token is the empty string); with no pages at all the fallback of line 139
returns an empty result. -/
def search_assets (pages : List InvPage) :
    List AssetRecord × Option String :=
  match pages with
  | [] => ([], none)
  | page :: _ =>
    (page.results.map mkResource,
     if page.next_page_token = "" then none else some page.next_page_token)

/-- Number of page fetches `search_assets` issues: the `return` inside the
first iteration of the `pager.pages` loop prevents a second fetch. -/
def searchAssetsPagesFetched (pages : List InvPage) : Nat :=
  min pages.length 1

end InventoryMcp

/-! ## Helper definitions and lemmas -/

namespace PshMcp

/-- Normalize every event of a list in order, propagating the first error:
the specification-side expression "the normalizations of these events". -/
def normalizeAll : List EventInput → Except PyError (List FormattedEvent)
  | [] => .ok []
  | e :: rest =>
    match _format_event_details e with
    | .error err => .error err
    | .ok fe =>
      match normalizeAll rest with
      | .error err => .error err
      | .ok fes => .ok (fe :: fes)

end PshMcp

/-- A successful `normalizeAll` yields one output per input. -/
theorem normalizeAll_length :
    ∀ (l : List PshMcp.EventInput) (out : List PshMcp.FormattedEvent),
      PshMcp.normalizeAll l = .ok out → out.length = l.length := by
  intro l
  induction l with
  | nil =>
    intro out h
    simp only [PshMcp.normalizeAll] at h
    cases h
    rfl
  | cons e rest ih =>
    intro out h
    simp only [PshMcp.normalizeAll] at h
    cases hfe : PshMcp._format_event_details e with
    | error err => rw [hfe] at h; cases h
    | ok fe =>
      rw [hfe] at h
      cases hrest : PshMcp.normalizeAll rest with
      | error err => rw [hrest] at h; cases h
      | ok fes =>
        rw [hrest] at h
        cases h
        simp [ih fes hrest]

/-- Unrolling of `PshMcp.eventLoop`: with fewer than ten events collected so
far, the loop returns the accumulated events followed by the normalizations of
the next `10 - acc.length` stream elements, or the first error among them. -/
theorem eventLoop_spec (stream : List PshMcp.EventInput) :
    ∀ acc : List PshMcp.FormattedEvent, acc.length < 10 →
      PshMcp.eventLoop stream acc =
        (match PshMcp.normalizeAll (stream.take (10 - acc.length)) with
         | .error e => .error e
         | .ok l => .ok (acc ++ l)) := by
  induction stream with
  | nil =>
    intro acc _
    simp [PshMcp.eventLoop, PshMcp.normalizeAll]
  | cons e rest ih =>
    intro acc hacc
    have htake : (10 - acc.length) = (10 - acc.length - 1) + 1 := by omega
    rw [PshMcp.eventLoop, htake, List.take_succ_cons]
    show (match PshMcp._format_event_details e with
      | Except.error err => Except.error err
      | Except.ok fe =>
        let events2 := acc ++ [fe]
        if 10 ≤ events2.length then Except.ok events2
        else PshMcp.eventLoop rest events2) = _
    cases hfe : PshMcp._format_event_details e with
    | error err => simp [PshMcp.normalizeAll, hfe]
    | ok fe =>
      simp only [PshMcp.normalizeAll, hfe]
      by_cases hfull : 10 ≤ (acc ++ [fe]).length
      · have hzero : 10 - acc.length - 1 = 0 := by
          simp only [List.length_append, List.length_cons, List.length_nil] at hfull
          omega
        simp [if_pos hfull, hzero, PshMcp.normalizeAll]
        intro hcon
        exfalso
        simp only [List.length_append, List.length_cons, List.length_nil] at hfull
        omega
      · have hlen2 : (acc ++ [fe]).length < 10 := by omega
        have hsub : 10 - (acc ++ [fe]).length = 10 - acc.length - 1 := by
          simp only [List.length_append, List.length_cons, List.length_nil]
          omega
        rw [if_neg hfull, ih (acc ++ [fe]) hlen2, hsub]
        cases hmt : PshMcp.normalizeAll (rest.take (10 - acc.length - 1)) with
        | error err => simp [hmt]
        | ok fes => simp [hmt]

/-! ## Claims -/

/-- Claim C1: for every candidate scan result and marker scan result observed
by `list_projects_without_service_health`, the disabled list equals exactly
the candidates whose project identifier is not in the marker set, preserving
the candidates first-seen order (the scenario with candidates
projects/100 and projects/200 and a marker for projects/100 is the witness
below). -/
theorem C1_flagged_is_ordered_set_difference
    (scope : String) (max_projects : Int) (env : PshMcp.AuditEnv)
    (h : PshMcp.safetyGuardTriggered scope max_projects = false) :
    PshMcp.disabledOf
        (PshMcp.list_projects_without_service_health scope max_projects env) =
      some ((PshMcp.projectsToCheck env).filter
        (fun p => !(PshMcp.enabledProjects env).contains p)) := by
  by_cases hp : PshMcp.projectsToCheck env = []
  · simp [PshMcp.list_projects_without_service_health, h, hp, PshMcp.disabledOf]
  · simp [PshMcp.list_projects_without_service_health, h, hp, PshMcp.disabledOf]

/-- Witness for C1, which is also the scenario of the claim: candidates
projects/100 and projects/200 on one page, one marker referencing
projects/100, no safety guard, and the disabled list is exactly
[projects/200]. -/
theorem C1_flagged_is_ordered_set_difference_witness :
    PshMcp.safetyGuardTriggered "organizations/1" 50 = false ∧
    PshMcp.disabledOf
        (PshMcp.list_projects_without_service_health "organizations/1" 50
          ⟨[⟨[⟨"projects/100"⟩, ⟨"projects/200"⟩], ""⟩],
           [⟨[⟨"projects/100"⟩], ""⟩]⟩) =
      some ["projects/200"] :=
  ⟨by decide,
   (C1_flagged_is_ordered_set_difference "organizations/1" 50
      ⟨[⟨[⟨"projects/100"⟩, ⟨"projects/200"⟩], ""⟩],
       [⟨[⟨"projects/100"⟩], ""⟩]⟩ (by decide)).trans (by decide)⟩

/-- Claim C4 evaluated at its own input: a raw event whose updates carry the
times 10:00Z, 12:00Z and absent makes `_format_event_details` raise
`TypeError`, because the sort key `x.get("time", "")` returns the stored
`None` (the `time` key is always present) and CPython cannot order `None`
against a string; the claimed output [12:00, 10:00, absent] is never
produced. -/
theorem C4_sort_raises_on_absent_time :
    PshMcp._format_event_details (PshMcp.EventInput.mapping
      { name := none, title := none, state := none, updateTime := none,
        updates := [⟨some "2024-01-01T10:00Z", none, none, some "W10"⟩,
                    ⟨some "2024-01-01T12:00Z", none, none, some "W12"⟩,
                    ⟨none, none, none, some "Wabs"⟩],
        impactedProducts := [] }) = .error .typeError := rfl

/-- Claim C5: `search_assets` returns exactly the records of the first page
of the stream together with that page continuation token (`None` when the
token is empty, meaning the stream ends), and never consumes a second page:
its page-fetch count is at most one for every stream. -/
theorem C5_search_assets_single_page (page : InventoryMcp.InvPage)
    (rest : List InventoryMcp.InvPage) :
    InventoryMcp.search_assets (page :: rest) =
      (page.results.map InventoryMcp.mkResource,
        if page.next_page_token = "" then none else some page.next_page_token) ∧
    (∀ pages : List InventoryMcp.InvPage,
        InventoryMcp.searchAssetsPagesFetched pages ≤ 1) ∧
    InventoryMcp.search_assets [] = ([], none) := by
  refine ⟨rfl, ?_, rfl⟩
  intro pages
  exact Nat.min_le_right _ _

/-- Claim C6: an input that is neither a structured event object nor a plain
mapping is normalized to an event with every flat field absent, empty
timeline and impacted products, and absent latest workaround, without any
error. -/
theorem C6_malformed_input_all_absent :
    PshMcp._format_event_details PshMcp.EventInput.malformed =
      .ok { id := none, title := none, state := none, last_updated := none,
            impacted_products := [], timeline := [],
            latest_workaround := none } := rfl

/-- Claim C7: token resolution in both servers returns the explicit token
when one is present, otherwise the ambient request-context token when one is
present, and otherwise fails with the authentication error; presence is
Python truthiness (a non-empty string), and `get_token` performs no network
interaction (it is a pure function of its two inputs). -/
theorem C7_token_precedence (e a : Option String) :
    (pyTruthy e = true →
      PshMcp.get_token e a = .ok (e.getD "") ∧
      InventoryMcp.get_token e a = .ok (e.getD "")) ∧
    (pyTruthy e = false → pyTruthy a = true →
      PshMcp.get_token e a = .ok (a.getD "") ∧
      InventoryMcp.get_token e a = .ok (a.getD "")) ∧
    (pyTruthy e = false → pyTruthy a = false →
      PshMcp.get_token e a = .error (.valueError
        "Authentication required: No Bearer token provided in header or arguments.") ∧
      InventoryMcp.get_token e a = .error (.valueError
        "Authentication required: No Bearer token provided in header or arguments.")) := by
  refine ⟨?_, ?_, ?_⟩
  · intro he
    constructor <;> simp [PshMcp.get_token, InventoryMcp.get_token, he]
  · intro he ha
    constructor <;> simp [PshMcp.get_token, InventoryMcp.get_token, he, ha]
  · intro he ha
    constructor <;> simp [PshMcp.get_token, InventoryMcp.get_token, he, ha]

/-- Witness for C7: an explicit token A with no ambient token resolves to A
in both servers. -/
theorem C7_token_precedence_witness :
    pyTruthy (some "A") = true ∧
    PshMcp.get_token (some "A") none = .ok "A" ∧
    InventoryMcp.get_token (some "A") none = .ok "A" :=
  ⟨by decide,
   ((C7_token_precedence (some "A") none).1 (by decide)).1,
   ((C7_token_precedence (some "A") none).1 (by decide)).2⟩

/-- Counterexample to claim C2: with the only budget parameter of the
invocation set to one (max_projects = 1), an environment whose marker stream
holds two pages makes the enabled-service marker scan issue two page
fetches, exceeding the budget; the loop of server.py line 230 iterates the
marker pager to exhaustion with no page cap. -/
theorem C2_counterexample :
    PshMcp.auditMarkerFetches "projects/1" 1
      ⟨[⟨[⟨"projects/100"⟩], ""⟩],
       [⟨[⟨"projects/100"⟩], "t"⟩, ⟨[⟨"projects/300"⟩], ""⟩]⟩ = 2 ∧
    1 < 2 := by decide

/-- Claim C2 as amended: the candidate-project scan issues at most one page
fetch and, for a nonnegative budget whose page-size hint the service honors,
returns at most max_projects records; the marker scan, whenever it runs,
issues exactly as many page fetches as the marker stream has pages, bounded
by no budget. -/
theorem C2_amended_scan_bounds (scope : String) (max_projects : Int)
    (env : PshMcp.AuditEnv) (h0 : 0 ≤ max_projects)
    (hpages : ∀ pg ∈ env.candidate_pages,
      ((pg.results.length : Int) ≤ max_projects)) :
    PshMcp.auditCandidateFetches scope max_projects env ≤ 1 ∧
    ((PshMcp.projectsToCheck env).length : Int) ≤ max_projects ∧
    (PshMcp.safetyGuardTriggered scope max_projects = false →
      PshMcp.projectsToCheck env ≠ [] →
      PshMcp.auditMarkerFetches scope max_projects env =
        env.marker_pages.length) := by
  refine ⟨?_, ?_, ?_⟩
  · unfold PshMcp.auditCandidateFetches
    split
    · exact Nat.zero_le 1
    · exact Nat.min_le_right _ _
  · cases henv : env.candidate_pages with
    | nil => simpa [PshMcp.projectsToCheck, henv] using h0
    | cons pg t =>
      have hpg := hpages pg (by rw [henv]; exact List.mem_cons_self _ _)
      simpa [PshMcp.projectsToCheck, henv] using hpg
  · intro hg hp
    simp [PshMcp.auditMarkerFetches, hg, hp]

/-- Witness for the amended C2 at a one-page candidate stream with a single
record and budget one. -/
theorem C2_amended_scan_bounds_witness :
    (0 : Int) ≤ 1 ∧
    PshMcp.auditCandidateFetches "projects/1" 1
      ⟨[⟨[⟨"projects/100"⟩], ""⟩], []⟩ ≤ 1 ∧
    ((PshMcp.projectsToCheck ⟨[⟨[⟨"projects/100"⟩], ""⟩], []⟩).length : Int)
      ≤ 1 :=
  ⟨by decide,
   (C2_amended_scan_bounds "projects/1" 1 ⟨[⟨[⟨"projects/100"⟩], ""⟩], []⟩
      (by decide) (by decide)).1,
   (C2_amended_scan_bounds "projects/1" 1 ⟨[⟨[⟨"projects/100"⟩], ""⟩], []⟩
      (by decide) (by decide)).2.1⟩

/-- Counterexample to claim C3: an invocation whose candidate scan stops at
its one-page cap with more pages available (the first page carries a
continuation token and a second page exists) returns a dictionary whose keys
are exactly disabled_projects, scanned_count and warning; no truncated field
is present in the result. -/
theorem C3_counterexample :
    PshMcp.auditResultKeys "projects/1" 1
      ⟨[⟨[⟨"projects/100"⟩], "t2"⟩, ⟨[⟨"projects/900"⟩], ""⟩], [⟨[], ""⟩]⟩ =
      ["disabled_projects", "scanned_count", "warning"] ∧
    "truncated" ∉ PshMcp.auditResultKeys "projects/1" 1
      ⟨[⟨[⟨"projects/100"⟩], "t2"⟩, ⟨[⟨"projects/900"⟩], ""⟩], [⟨[], ""⟩]⟩ := by
  decide

/-- Claim C3 as amended: no audit invocation ever returns a truncated field;
the returned dictionary has exactly the keys disabled_projects and warning
(early return) or disabled_projects, scanned_count and warning, and the only
incompleteness signal is the warning string. -/
theorem C3_amended_no_truncated_key (scope : String) (max_projects : Int)
    (env : PshMcp.AuditEnv) :
    "truncated" ∉ PshMcp.auditResultKeys scope max_projects env ∧
    (PshMcp.auditResultKeys scope max_projects env = [] ∨
     PshMcp.auditResultKeys scope max_projects env =
       ["disabled_projects", "warning"] ∨
     PshMcp.auditResultKeys scope max_projects env =
       ["disabled_projects", "scanned_count", "warning"]) := by
  unfold PshMcp.auditResultKeys PshMcp.list_projects_without_service_health
  by_cases hg : PshMcp.safetyGuardTriggered scope max_projects
  · simp [hg]
  · by_cases hp : PshMcp.projectsToCheck env = [] <;> simp [hg, hp]

/-- Witness for the amended C3 at the empty environment. -/
theorem C3_amended_no_truncated_key_witness :
    "truncated" ∉ PshMcp.auditResultKeys "projects/1" 50 ⟨[], []⟩ :=
  (C3_amended_no_truncated_key "projects/1" 50 ⟨[], []⟩).1

/-- Counterexample to claim C8: with an empty scope and a non-positive
budget (max_projects = 0), the audit raises no validation error at all; it
proceeds to the candidate scan and returns the early empty result, although
the claim requires an InvalidInput error before any network call. -/
theorem C8_counterexample :
    PshMcp.list_projects_without_service_health "" 0 ⟨[], []⟩ =
      .ok [("disabled_projects", PshMcp.PyVal.vlist []),
           ("warning", PshMcp.PyVal.vstr "No active projects found in scope.")] :=
  rfl

/-- Claim C8 as amended: the audit raises a validation error exactly when the
scope contains the substring organizations and max_projects exceeds 100, and
in that case neither scan issues any page fetch; empty scopes and
non-positive budgets are not rejected. -/
theorem C8_amended_only_safety_guard (scope : String) (max_projects : Int)
    (env : PshMcp.AuditEnv) :
    ((∃ msg, PshMcp.list_projects_without_service_health scope max_projects env
        = .error (.valueError msg)) ↔
      PshMcp.safetyGuardTriggered scope max_projects = true) ∧
    (PshMcp.safetyGuardTriggered scope max_projects = true →
      PshMcp.auditCandidateFetches scope max_projects env = 0 ∧
      PshMcp.auditMarkerFetches scope max_projects env = 0) := by
  constructor
  · constructor
    · rintro ⟨msg, hmsg⟩
      by_contra hg
      rw [Bool.not_eq_true] at hg
      by_cases hp : PshMcp.projectsToCheck env = [] <;>
        simp [PshMcp.list_projects_without_service_health, hg, hp] at hmsg
    · intro hg
      exact ⟨"Safety Guard: max_projects limited to 100 for Organization scopes.",
        by simp [PshMcp.list_projects_without_service_health, hg]⟩
  · intro hg
    simp [PshMcp.auditCandidateFetches, PshMcp.auditMarkerFetches, hg]

/-- Witness for the amended C8: an organization scope with budget 101
triggers the guard and no page is fetched. -/
theorem C8_amended_only_safety_guard_witness :
    PshMcp.safetyGuardTriggered "organizations/1" 101 = true ∧
    PshMcp.auditCandidateFetches "organizations/1" 101 ⟨[], []⟩ = 0 ∧
    PshMcp.auditMarkerFetches "organizations/1" 101 ⟨[], []⟩ = 0 :=
  ⟨by decide,
   (C8_amended_only_safety_guard "organizations/1" 101 ⟨[], []⟩).2 (by decide)⟩

/-- Counterexample to claim C9: normalizing a concrete raw event and feeding
the normalized dictionary back as a plain mapping does not reproduce the
same id and latest workaround: the output stores the name under the key id
and carries no updates key, so renormalization reads id as absent and
derives an absent latest workaround. -/
theorem C9_counterexample :
    PshMcp._format_event_details (PshMcp.EventInput.mapping
      { name := some "projects/123/events/abc", title := some "Test Outage",
        state := none, updateTime := none,
        updates := [⟨some "2024-01-01T12:00:00Z", none, none,
          some "Do nothing."⟩],
        impactedProducts := [] }) =
      .ok { id := some "projects/123/events/abc", title := some "Test Outage",
            state := none, last_updated := none, impacted_products := [],
            timeline := [⟨some "2024-01-01T12:00:00Z", none, none,
              some "Do nothing."⟩],
            latest_workaround := some "Do nothing." } ∧
    PshMcp._format_event_details (PshMcp.EventInput.mapping
      (PshMcp.formattedAsMapping
        { id := some "projects/123/events/abc", title := some "Test Outage",
          state := none, last_updated := none, impacted_products := [],
          timeline := [⟨some "2024-01-01T12:00:00Z", none, none,
            some "Do nothing."⟩],
          latest_workaround := some "Do nothing." })) =
      .ok { id := none, title := some "Test Outage", state := none,
            last_updated := none, impacted_products := [], timeline := [],
            latest_workaround := none } ∧
    (none : Option String) ≠ some "projects/123/events/abc" ∧
    (none : Option String) ≠ some "Do nothing." :=
  ⟨rfl, rfl, by decide, by decide⟩

/-- Claim C9 as amended: renormalizing a normalized event as a plain mapping
preserves title and state but yields an absent id, absent last-updated time,
empty impacted products, an empty timeline and consequently an absent latest
workaround, because the output keys id, last_updated, impacted_products and
timeline are not among the keys the normalizer consults. -/
theorem C9_amended_renormalization (fe : PshMcp.FormattedEvent) :
    PshMcp._format_event_details
        (PshMcp.EventInput.mapping (PshMcp.formattedAsMapping fe)) =
      .ok { id := none, title := fe.title, state := fe.state,
            last_updated := none, impacted_products := [], timeline := [],
            latest_workaround := none } := rfl

/-- Claim C10: both event-listing tools return the normalizations of exactly
the first ten events the service yields, in stream order, and a successful
result never holds more than ten events. -/
theorem C10_first_ten_events (stream : List PshMcp.EventInput) :
    PshMcp.list_active_events stream = PshMcp.normalizeAll (stream.take 10) ∧
    PshMcp.list_org_events stream = PshMcp.normalizeAll (stream.take 10) ∧
    (∀ out, PshMcp.list_active_events stream = .ok out → out.length ≤ 10) ∧
    (∀ out, PshMcp.list_org_events stream = .ok out → out.length ≤ 10) := by
  have heq : PshMcp.eventLoop stream [] = PshMcp.normalizeAll (stream.take 10) := by
    rw [eventLoop_spec stream [] (by decide)]
    cases hmt : PshMcp.normalizeAll (stream.take (10 - List.length [])) with
    | error e => simpa using hmt.symm
    | ok l => simpa using hmt.symm
  have hlen : ∀ out, PshMcp.eventLoop stream [] = .ok out → out.length ≤ 10 := by
    intro out hout
    rw [heq] at hout
    have := normalizeAll_length (stream.take 10) out hout
    rw [this, List.length_take]
    exact Nat.min_le_left _ _
  exact ⟨heq, heq, hlen, hlen⟩

/-- Witness for C10: a stream of twelve malformed events yields exactly the
first ten normalized (all-absent) events. -/
theorem C10_first_ten_events_witness :
    PshMcp.list_active_events
        (List.replicate 12 PshMcp.EventInput.malformed) =
      .ok (List.replicate 10
        ({ id := none, title := none, state := none, last_updated := none,
           impacted_products := [], timeline := [],
           latest_workaround := none } : PshMcp.FormattedEvent)) ∧
    (List.replicate 10
      ({ id := none, title := none, state := none, last_updated := none,
         impacted_products := [], timeline := [],
         latest_workaround := none } : PshMcp.FormattedEvent)).length ≤ 10 :=
  ⟨rfl,
   (C10_first_ten_events (List.replicate 12 PshMcp.EventInput.malformed)).2.2.1
     _ rfl⟩

/-- Witness for C5: a two-page stream returns only the first page record and
its token, never touching the second page. -/
theorem C5_search_assets_single_page_witness :
    InventoryMcp.search_assets
        [⟨[⟨"n1", "compute.googleapis.com/Instance", "d1", "projects/1",
            "ACTIVE"⟩], "tok"⟩,
         ⟨[⟨"n2", "compute.googleapis.com/Instance", "d2", "projects/2",
            "ACTIVE"⟩], ""⟩] =
      ([⟨"n1", "compute.googleapis.com/Instance", "d1", "projects/1",
         "ACTIVE"⟩], some "tok") ∧
    InventoryMcp.searchAssetsPagesFetched
        [⟨[⟨"n1", "compute.googleapis.com/Instance", "d1", "projects/1",
            "ACTIVE"⟩], "tok"⟩,
         ⟨[⟨"n2", "compute.googleapis.com/Instance", "d2", "projects/2",
            "ACTIVE"⟩], ""⟩] ≤ 1 :=
  ⟨((C5_search_assets_single_page
      ⟨[⟨"n1", "compute.googleapis.com/Instance", "d1", "projects/1",
          "ACTIVE"⟩], "tok"⟩
      [⟨[⟨"n2", "compute.googleapis.com/Instance", "d2", "projects/2",
          "ACTIVE"⟩], ""⟩]).1).trans (by decide),
   (C5_search_assets_single_page
      ⟨[⟨"n1", "compute.googleapis.com/Instance", "d1", "projects/1",
          "ACTIVE"⟩], "tok"⟩
      [⟨[⟨"n2", "compute.googleapis.com/Instance", "d2", "projects/2",
          "ACTIVE"⟩], ""⟩]).2.1 _⟩

/-- Witness for the amended C9 at a fully populated normalized event. -/
theorem C9_amended_renormalization_witness :
    PshMcp._format_event_details (PshMcp.EventInput.mapping
        (PshMcp.formattedAsMapping
          { id := some "x", title := some "T", state := some "ACTIVE",
            last_updated := some "2024-01-01T12:00:00Z",
            impacted_products := [some "P"],
            timeline := [⟨some "2024-01-01T12:00:00Z", none, none, some "W"⟩],
            latest_workaround := some "W" })) =
      .ok { id := none, title := some "T", state := some "ACTIVE",
            last_updated := none, impacted_products := [], timeline := [],
            latest_workaround := none } :=
  C9_amended_renormalization
    { id := some "x", title := some "T", state := some "ACTIVE",
      last_updated := some "2024-01-01T12:00:00Z",
      impacted_products := [some "P"],
      timeline := [⟨some "2024-01-01T12:00:00Z", none, none, some "W"⟩],
      latest_workaround := some "W" }
